import Mathlib

/-!
# Verification of the `socks` pub/sub relay server

A shallow embedding of `src/socks/server.py`: a minimal real-time pub/sub
relay where subscribers connect over websockets (`Server.ws_handler`),
declare channel interest, and publishers POST events (`Server.send_handler`)
that are fanned out (`Server.send_channels`) to every registered connection
whose interest set intersects the target channel set.

JSON values are modelled by `JValue` (mutually inductive with `JArr` and
`JObj` to keep decidable equality derivable); Python runtime errors the code
can raise or catch are modelled by `PyError`.  The server's mutable state
(`self.websockets`, `self.sockets`) is `ServerState`; one iteration of the
`async for message in websocket` loop body in `ws_handler` is `wsStep`; the
publish endpoint is `sendHandler`; the fan-out is `coros`/`sendChannels`.
-/

mutual
/-- A parsed JSON value, the result of `message.json()` or `req.json()`.
Numbers are modelled as integers (no claim involves floats).  Parsed objects
have unique keys (Python's JSON parser keeps one value per key). -/
inductive JValue where
  | null
  | bool (b : Bool)
  | num (n : Int)
  | str (s : String)
  | arr (xs : JArr)
  | obj (kvs : JObj)
deriving DecidableEq

/-- A JSON array: a list of `JValue`s. -/
inductive JArr where
  | nil
  | cons (x : JValue) (xs : JArr)
deriving DecidableEq

/-- A JSON object: an association list from string keys to `JValue`s. -/
inductive JObj where
  | nil
  | cons (k : String) (v : JValue) (kvs : JObj)
deriving DecidableEq
end

/-- The elements of a JSON array as a `List`. -/
def JArr.toList : JArr → List JValue
  | .nil => []
  | .cons x xs => x :: JArr.toList xs

/-- Build a JSON array from a `List`. -/
def JArr.ofList : List JValue → JArr
  | [] => .nil
  | x :: xs => .cons x (JArr.ofList xs)

/-- The key/value pairs of a JSON object as a `List`. -/
def JObj.toList : JObj → List (String × JValue)
  | .nil => []
  | .cons k v kvs => (k, v) :: JObj.toList kvs

/-- Build a JSON object from a `List` of key/value pairs. -/
def JObj.ofList : List (String × JValue) → JObj
  | [] => .nil
  | (k, v) :: kvs => .cons k v (JObj.ofList kvs)

/-- Python `dict.get(key)` on a parsed JSON object: the value at `key`, if
present (keys are unique after parsing, so first match suffices). -/
def JObj.get : JObj → String → Option JValue
  | .nil, _ => none
  | .cons k v kvs, key => if k = key then some v else JObj.get kvs key

/-- Is this value a JSON array (a Python `list`)?  Models
`isinstance(x, list)`. -/
def JValue.isArr : JValue → Bool
  | .arr _ => true
  | _ => false

/-- Is this value a JSON object (a Python `dict`)? -/
def JValue.isObj : JValue → Bool
  | .obj _ => true
  | _ => false

/-- The Python runtime errors relevant to `server.py`: raised by `set()` on
a non-iterable (`TypeError`), by `set.remove` / `dict[...]` on a missing
element (`KeyError`), by `.get` on a non-dict (`AttributeError`), by a send
on a reset transport (`ConnectionResetError`), and by `json` parsing
(`JSONDecodeError`). -/
inductive PyError where
  | typeError
  | keyError
  | attributeError
  | connectionResetError
  | jsonDecodeError
deriving DecidableEq

/-- Decidable equality for `Except` results, used to evaluate the model on
concrete inputs. -/
instance {e a : Type} [DecidableEq e] [DecidableEq a] : DecidableEq (Except e a) := fun x y =>
  match x, y with
  | .error u, .error v =>
    decidable_of_iff (u = v) ⟨fun h => by rw [h], fun h => by injection h⟩
  | .error _, .ok _ => isFalse fun h => Except.noConfusion h
  | .ok _, .error _ => isFalse fun h => Except.noConfusion h
  | .ok u, .ok v =>
    decidable_of_iff (u = v) ⟨fun h => by rw [h], fun h => by injection h⟩

/-- Python truthiness (`bool(x)`) of a JSON value: `None`, `False`, `0`,
`""`, `[]` and `{}` are falsy, everything else truthy. -/
def pyTruthy : JValue → Bool
  | .null => false
  | .bool b => b
  | .num n => n != 0
  | .str s => s != ""
  | .arr .nil => false
  | .arr (.cons _ _) => true
  | .obj .nil => false
  | .obj (.cons _ _ _) => true

/-- Python iteration over a JSON value: a string yields its characters as
one-character strings, a list its elements, a dict its keys; any other
value raises `TypeError` (not iterable). -/
def pyIter : JValue → Except PyError (List JValue)
  | .str s => .ok (s.toList.map fun c => .str (String.mk [c]))
  | .arr xs => .ok xs.toList
  | .obj kvs => .ok (kvs.toList.map fun kv => .str kv.fst)
  | _ => .error .typeError

/-- Python `set(x)`: the deduplicated elements of iterating `x` (a Python
set is modelled as a duplicate-free list; equality of sets is membership
equality), or `TypeError` when `x` is not iterable. -/
def pySet (v : JValue) : Except PyError (List JValue) :=
  (pyIter v).map List.dedup

/-- Python `a & b` on sets: the intersection, as a duplicate-free list. -/
def pySetInter (a b : List JValue) : List JValue := a ∩ b

/-- Python truthiness of a set (`if channels & socket.channels`):
non-empty. -/
def pySetTruthy (s : List JValue) : Bool := !s.isEmpty

/-- Does `hay` contain `needle` as a substring (Python `key in str`)? -/
def strContainsSubstr (needle hay : String) : Bool :=
  (List.range (hay.length + 1)).any fun i => (hay.drop i).startsWith needle

/-- The Python expression `key in data` for a string `key`: key membership
for a dict, element membership for a list, substring test for a string,
`TypeError` otherwise (as in line 119 of `server.py`). -/
def pyContains (key : String) (v : JValue) : Except PyError Bool :=
  match v with
  | .obj kvs => .ok ((kvs.toList.map Prod.fst).contains key)
  | .arr xs => .ok (xs.toList.contains (.str key))
  | .str s => .ok (strContainsSubstr key s)
  | _ => .error .typeError

/-- The Python expression `data[key]` for a string `key`: dict lookup
(`KeyError` when missing); list/string indexing with a string key raises
`TypeError`, as does subscripting any other value. -/
def pyGetItem (v : JValue) (key : String) : Except PyError JValue :=
  match v with
  | .obj kvs =>
    match kvs.get key with
    | some x => .ok x
    | none => .error .keyError
  | _ => .error .typeError

/-- One registered subscriber connection: a `Socket` object
(`Socket.from_websocket(websocket, channels_set)`).  Python compares the
objects in `self.sockets` by object identity, modelled by `id`;
`channels` is the mutable `socket.channels` set. -/
structure Socket where
  id : Nat
  channels : List JValue
deriving DecidableEq

/-- The mutable state of a `Server`: the configured `self.secret`, the
`self.websockets` set (websocket handles, by identity) and the
`self.sockets` registry.  The registry is a list of `Socket`s with
distinct identities (Python: a `set` of distinct objects). -/
structure ServerState where
  secret : String
  websockets : Finset Nat
  sockets : List Socket
deriving DecidableEq

/-- `self.sockets.remove(socket)`: Python `set.remove`, which removes the
object and raises `KeyError` when it is absent (it is *not* `discard`). -/
def removeSocket (sockets : List Socket) (sid : Nat) : Except PyError (List Socket) :=
  if sockets.any fun s => s.id == sid then .ok (sockets.filter fun s => s.id != sid)
  else .error .keyError

/-- `socket.channels = channels_set` (line 103): mutate the channel set of
the socket object identified by `sid` in place. -/
def setChannels (sockets : List Socket) (sid : Nat) (chs : List JValue) : List Socket :=
  sockets.map fun s => if s.id = sid then { s with channels := chs } else s

/-- The channel set of the registered socket with identity `sid`, if any. -/
def lookupChannels (sockets : List Socket) (sid : Nat) : Option (List JValue) :=
  (sockets.find? fun s => s.id == sid).map Socket.channels

/-- A fresh object identity for `Socket.from_websocket` (line 100): a new
Python object is distinct from every live one. -/
def freshId (sockets : List Socket) : Nat :=
  (sockets.map Socket.id).foldr max 0 + 1

/-- `{"success": False, "error": "Invalid JSON."}` (lines 83-85). -/
def ackInvalidJson : JValue :=
  .obj (JObj.ofList [("success", .bool false), ("error", .str "Invalid JSON.")])

/-- `{"success": False, "error": "No channels provided."}` (lines 90-92). -/
def ackNoChannels : JValue :=
  .obj (JObj.ofList [("success", .bool false), ("error", .str "No channels provided.")])

/-- `{"success": False, "error": "Channels must be an array."}` (lines 95-97). -/
def ackNotArray : JValue :=
  .obj (JObj.ofList [("success", .bool false), ("error", .str "Channels must be an array.")])

/-- `{"success": True, "channels": list(set(channels_set))}` (lines
104-106); `channels_set` is already a set, so this is its elements in some
order. -/
def ackSuccess (chs : List JValue) : JValue :=
  .obj (JObj.ofList [("success", .bool true), ("channels", .arr (JArr.ofList chs))])

/-- One inbound websocket message, as seen by the `async for` loop of
`ws_handler`: an explicit CLOSE frame, a TEXT frame (carrying the result of
`message.json()`: `none` models a `json.JSONDecodeError`), or any other
frame type (BINARY, PING, ..., for which the handler has no branch). -/
inductive WsMsg where
  | close
  | text (parsed : Option JValue)
  | other
deriving DecidableEq

/-- The observable effect of one iteration of the `ws_handler` message
loop: the new server state, the new value of the local variable `socket`
(by identity), the JSON acknowledgments sent with `websocket.send_json`,
whether an exception was caught and logged by the `except Exception`
handler (lines 107-113), and whether the handler returned (ending the
session). -/
structure StepResult where
  st : ServerState
  loc : Option Nat
  sent : List JValue
  logged : Bool
  done : Bool
deriving DecidableEq

/-- One iteration of the `async for message in websocket` loop body of
`Server.ws_handler` (lines 73-113), with `loc` the current value of the
local variable `socket`.  Faithful points: `channels_set = set(channels)`
is evaluated *before* the emptiness and `isinstance` checks, so a truthy
non-iterable `channels` raises `TypeError` (caught and logged, no reply);
`data.get` on a non-dict raises `AttributeError` (caught and logged, no
reply); a CLOSE frame removes the socket from the registry with
`set.remove` and returns; a `KeyError` from that removal would be caught
by the `except Exception` handler, so the `return` would not run. -/
def wsStep (st : ServerState) (loc : Option Nat) (m : WsMsg) : StepResult :=
  match m with
  | .close =>
    match loc with
    | none => ⟨st, none, [], false, true⟩
    | some sid =>
      match removeSocket st.sockets sid with
      | .ok sockets' => ⟨{ st with sockets := sockets' }, some sid, [], false, true⟩
      | .error _ => ⟨st, some sid, [], true, false⟩
  | .text none => ⟨st, loc, [ackInvalidJson], false, false⟩
  | .text (some (.obj kvs)) =>
    let channels := (kvs.get "channels").getD (.arr .nil)
    match pySet channels with
    | .error _ => ⟨st, loc, [], true, false⟩
    | .ok channelsSet =>
      if !pyTruthy channels then ⟨st, loc, [ackNoChannels], false, false⟩
      else if !channels.isArr then ⟨st, loc, [ackNotArray], false, false⟩
      else
        match loc with
        | none =>
          let sid := freshId st.sockets
          ⟨{ st with sockets := st.sockets ++ [⟨sid, channelsSet⟩] }, some sid,
            [ackSuccess channelsSet], false, false⟩
        | some sid =>
          ⟨{ st with sockets := setChannels st.sockets sid channelsSet }, some sid,
            [ackSuccess channelsSet], false, false⟩
  | .text (some _) => ⟨st, loc, [], true, false⟩
  | .other => ⟨st, loc, [], false, false⟩

/-- Run the `ws_handler` message loop over a list of inbound messages; the
end of the list models the transport closing or erroring (the `async for`
iteration ending).  Note `ws_handler` has no cleanup code after the loop:
when the list is exhausted the state is returned unchanged. -/
def wsRun (st : ServerState) (loc : Option Nat) : List WsMsg → ServerState × Option Nat
  | [] => (st, loc)
  | m :: ms =>
    let r := wsStep st loc m
    if r.done then (r.st, r.loc) else wsRun r.st r.loc ms

/-- `Server.ws_handler` (lines 68-114) for one subscriber connection with
websocket handle `wsId`: add the websocket to `self.websockets` (line 72),
start with the local `socket = None` (line 71), then process the inbound
messages until an explicit CLOSE frame returns or the transport
closes/errors (the message list ends). -/
def wsHandler (st : ServerState) (wsId : Nat) (msgs : List WsMsg) : ServerState × Option Nat :=
  wsRun { st with websockets := insert wsId st.websockets } none msgs

/-- The HTTP response raised by `Server.send_handler`: `HTTPUnauthorized`
(401, line 117), `HTTPBadRequest` (400, lines 120/122), `HTTPCreated`
(201, line 124), or an uncaught Python exception, which aiohttp turns into
a 500 Internal Server Error. -/
inductive HttpResponse where
  | unauthorized
  | badRequest
  | created
  | internalError (e : PyError)
deriving DecidableEq

/-- The observable effect of `Server.send_handler`: the HTTP response and
the fan-out scheduled with `self.loop.create_task(self.send_channels(...))`
(line 123), if any — the target channel set `set(data["channels"])` and
the event payload `data["event"]`. -/
structure SendResult where
  response : HttpResponse
  dispatch : Option (List JValue × JValue)
deriving DecidableEq

/-- `Server.send_handler` (lines 115-124).  `auth` is
`req.headers.get("Authorization")` (`none` when the header is absent);
`body` is the result of `await req.json()` (`none` models a JSON parse
failure, which raises out of the handler).  Faithful points: the auth
check precedes the body parse; `or` short-circuits on line 119 and line
121; no check that `channels` is a list of strings is ever made;
`set(data["channels"])` on line 123 is evaluated before the task is
created, so a `TypeError` there prevents the dispatch and escapes the
handler. -/
def sendHandler (st : ServerState) (auth : Option String) (body : Option JValue) : SendResult :=
  if auth ≠ some st.secret then ⟨.unauthorized, none⟩
  else
    match body with
    | none => ⟨.internalError .jsonDecodeError, none⟩
    | some data =>
      match pyContains "channels" data with
      | .error e => ⟨.internalError e, none⟩
      | .ok hasChannels =>
        if !hasChannels then ⟨.badRequest, none⟩
        else
          match pyContains "event" data with
          | .error e => ⟨.internalError e, none⟩
          | .ok hasEvent =>
            if !hasEvent then ⟨.badRequest, none⟩
            else
              match pyGetItem data "channels" with
              | .error e => ⟨.internalError e, none⟩
              | .ok channelsV =>
                if !pyTruthy channelsV then ⟨.badRequest, none⟩
                else
                  match pyGetItem data "event" with
                  | .error e => ⟨.internalError e, none⟩
                  | .ok eventV =>
                    if !pyTruthy eventV then ⟨.badRequest, none⟩
                    else
                      match pySet channelsV with
                      | .error e => ⟨.internalError e, none⟩
                      | .ok chSet => ⟨.created, some (chSet, eventV)⟩

/-- The connections selected by the fan-out comprehension on line 152:
every registered socket whose channel set has a non-empty intersection
with the target set (`if channels & socket.channels`).  This is the spec's
`matching`. -/
def matching (sockets : List Socket) (channels : List JValue) : List Socket :=
  sockets.filter fun s => pySetTruthy (pySetInter channels s.channels)

/-- The coroutine list
`[socket.send(event) for socket in self.sockets if channels & socket.channels]`
(lines 151-153).  `Socket.send` lives in the external `socket_` package,
so each send's outcome is supplied by `outcome` (an arbitrary result or
raised error per socket); the pair records which socket was sent to and
what its own send returned. -/
def coros (sockets : List Socket) (channels : List JValue) (event : JValue)
    (outcome : Socket → JValue → Except PyError Unit) : List (Socket × Except PyError Unit) :=
  (matching sockets channels).map fun s => (s, outcome s event)

/-- `asyncio.gather(*coros, return_exceptions=True)` (line 154): with
`return_exceptions=True` every result or exception is collected and
nothing is raised; without it the first exception would propagate. -/
def gather (returnExceptions : Bool) (results : List (Socket × Except PyError Unit)) :
    Except PyError (List (Socket × Except PyError Unit)) :=
  if returnExceptions then .ok results
  else
    match results.filterMap fun r => match r.2 with | .error e => some e | .ok _ => none with
    | [] => .ok results
    | e :: _ => .error e

/-- `Server.send_channels` (lines 150-154): build the coroutine list and
gather it with `return_exceptions=True`. -/
def sendChannels (sockets : List Socket) (channels : List JValue) (event : JValue)
    (outcome : Socket → JValue → Except PyError Unit) :
    Except PyError (List (Socket × Except PyError Unit)) :=
  gather true (coros sockets channels event outcome)

/-- A publish request end to end: `send_handler` produces the HTTP
response (already returned to the publisher), and the scheduled
`send_channels` task then runs against the registry.  `send_handler` and
`send_channels` read but never mutate the server state. -/
def publishAndDeliver (st : ServerState) (auth : Option String) (body : Option JValue)
    (outcome : Socket → JValue → Except PyError Unit) :
    HttpResponse × Except PyError (List (Socket × Except PyError Unit)) :=
  let r := sendHandler st auth body
  match r.dispatch with
  | some (chs, ev) => (r.response, sendChannels st.sockets chs ev outcome)
  | none => (r.response, .ok [])

/-- A system-level event touching the server state: a new subscriber
connection (`self.websockets.add(websocket)`, line 72), one inbound
message processed by some connection's handler (with that handler's local
`socket` variable), or a publish request (`send_handler` reads
`self.secret` and schedules `send_channels`, which reads `self.sockets`;
neither mutates any server state). -/
inductive SysEvent where
  | connect (wsId : Nat)
  | message (loc : Option Nat) (m : WsMsg)
  | publish (auth : Option String) (body : Option JValue)

/-- The effect of one system-level event on the server state. -/
def sysStep (st : ServerState) : SysEvent → ServerState
  | .connect wsId => { st with websockets := insert wsId st.websockets }
  | .message loc m => (wsStep st loc m).st
  | .publish _ _ => st

/-! ## Helper lemmas -/

theorem pySetTruthy_inter_iff (a b : List JValue) :
    pySetTruthy (pySetInter a b) = true ↔ ∃ c, c ∈ a ∧ c ∈ b := by
  simp only [pySetTruthy, pySetInter, Bool.not_eq_true', List.isEmpty_eq_false_iff_exists_mem,
    List.mem_inter_iff]

theorem wsStep_st_websockets (st : ServerState) (loc : Option Nat) (m : WsMsg) :
    (wsStep st loc m).st.websockets = st.websockets := by
  rcases m with _ | p | _
  · rcases loc with _ | sid
    · rfl
    · rcases h : removeSocket st.sockets sid with e | s'
      · simp [wsStep, h]
      · simp [wsStep, h]
  · rcases p with _ | v
    · rfl
    · rcases v with _ | b | n | s | xs | kvs
      · rfl
      · rfl
      · rfl
      · rfl
      · rfl
      · rcases h : pySet ((kvs.get "channels").getD (.arr .nil)) with e | cs
        · simp [wsStep, h]
        · rcases loc with _ | sid <;> simp only [wsStep, h] <;> repeat' split
          all_goals rfl
  · rfl

theorem contains_keys_iff_get : ∀ (kvs : JObj) (k : String),
    ((kvs.toList.map Prod.fst).contains k = true) ↔ ∃ v, kvs.get k = some v
  | .nil, k => by simp [JObj.toList, JObj.get]
  | .cons k' v' kvs, k => by
    have ih := contains_keys_iff_get kvs k
    by_cases h : k' = k
    · subst h
      simp [JObj.toList, JObj.get]
    · have hne : (k == k') = false := by
        simp only [beq_eq_false_iff_ne, ne_eq]
        exact fun e => h e.symm
      simp only [JObj.toList, List.map_cons, List.contains_cons, JObj.get, h, if_false, hne,
        Bool.false_or]
      exact ih

theorem lookupChannels_setChannels (sockets : List Socket) (sid : Nat) (chs : List JValue)
    (h : (lookupChannels sockets sid).isSome) :
    lookupChannels (setChannels sockets sid chs) sid = some chs := by
  induction sockets with
  | nil => simp [lookupChannels] at h
  | cons s rest ih =>
    by_cases hid : s.id = sid
    · simp [lookupChannels, setChannels, List.find?, hid]
    · have hne : (s.id == sid) = false := by simpa using hid
      simp only [lookupChannels, setChannels, List.map_cons, List.find?, hid, if_false, hne] at h ⊢
      exact ih (by simpa [lookupChannels] using h)

/-! ## Claims -/

/-- Claim C1: for every publish of an event with target channel set
`channels`, the fan-out `send_channels` attempts delivery to exactly those
connections currently in the registry whose channel-interest set has a
non-empty intersection with `channels`, and to no other connection. -/
theorem c1_fanout_exactly_matching (sockets : List Socket) (channels : List JValue)
    (event : JValue) (outcome : Socket → JValue → Except PyError Unit) (s : Socket) :
    (∃ rs r, sendChannels sockets channels event outcome = .ok rs ∧ (s, r) ∈ rs) ↔
      s ∈ sockets ∧ ∃ c, c ∈ channels ∧ c ∈ s.channels := by
  have hok : sendChannels sockets channels event outcome =
      .ok (coros sockets channels event outcome) := rfl
  constructor
  · rintro ⟨rs, r, hrs, hmem⟩
    rw [hok] at hrs
    cases hrs
    simp only [coros, List.mem_map] at hmem
    rcases hmem with ⟨a, ha, hae⟩
    cases hae
    simp only [matching, List.mem_filter] at ha
    exact ⟨ha.1, (pySetTruthy_inter_iff _ _).1 ha.2⟩
  · rintro ⟨hmem, hc⟩
    refine ⟨coros sockets channels event outcome, outcome s event, hok, ?_⟩
    simp only [coros, List.mem_map]
    refine ⟨s, ?_, rfl⟩
    simp only [matching, List.mem_filter]
    exact ⟨hmem, (pySetTruthy_inter_iff _ _).2 hc⟩

/-- Claim C2 (code bug): the registry-membership ⇔ transport-open
invariant fails on the code.  A subscriber registers for channel `"a"`,
then its transport closes abruptly (the message stream ends with no CLOSE
frame): `ws_handler` has no cleanup after its message loop, so the ended
handler leaves the `Socket` in `self.sockets` — the registry retains a
connection whose transport is closed. -/
theorem c2_registry_leak_on_abrupt_close :
    (wsHandler ⟨"s", ∅, []⟩ 7
        [.text (some (.obj (JObj.ofList [("channels", .arr (JArr.ofList [.str "a"]))])))]).1 =
      ⟨"s", {7}, [⟨1, [JValue.str "a"]⟩]⟩ := by
  decide

/-- Claim C4: a publish request whose Authorization header is not an exact
match of the configured secret gets `HTTPUnauthorized`, with no dispatch
and a result independent of the body (the body is never parsed: the auth
check precedes `req.json()`). -/
theorem c4_unauthorized_no_parse_no_dispatch (st : ServerState) (auth : Option String)
    (body : Option JValue) (h : auth ≠ some st.secret) :
    sendHandler st auth body = ⟨.unauthorized, none⟩ ∧
      ∀ outcome, publishAndDeliver st auth body outcome = (.unauthorized, .ok []) := by
  have h1 : sendHandler st auth body = ⟨.unauthorized, none⟩ := by simp [sendHandler, h]
  refine ⟨h1, fun outcome => ?_⟩
  simp [publishAndDeliver, h1]

theorem c4_unauthorized_witness :
    sendHandler ⟨"sec", ∅, []⟩ (some "wrong")
        (some (.obj (JObj.ofList [("channels", .arr (JArr.ofList [.str "a"])),
          ("event", .num 1)]))) = ⟨.unauthorized, none⟩ ∧
    publishAndDeliver ⟨"sec", ∅, []⟩ none none (fun _ _ => .ok ()) = (.unauthorized, .ok []) :=
  ⟨(c4_unauthorized_no_parse_no_dispatch _ _ _ (by decide)).1,
    (c4_unauthorized_no_parse_no_dispatch _ _ _ (by decide)).2 _⟩

/-- Claim C5 counterexample: removing a connection twice is not a silent
no-op — after `removeSocket` empties the registry, a second removal of the
same connection raises `KeyError` (Python `set.remove`), contradicting
"the second removal raises no error". -/
theorem c5_counterexample :
    removeSocket [⟨1, [JValue.str "a"]⟩] 1 = .ok [] ∧
    removeSocket [] 1 = .error .keyError := by
  decide

/-- Claim C5 (amended): removing a connection twice produces the same
registry end state as removing it once — the second removal removes
nothing — but the second removal raises `KeyError` rather than returning
silently (`set.remove`, not `set.discard`). -/
theorem c5_remove_twice (sockets sockets' : List Socket) (sid : Nat)
    (h : removeSocket sockets sid = .ok sockets') :
    removeSocket sockets' sid = .error .keyError ∧
      ∀ x, x ∈ sockets' ↔ x ∈ sockets ∧ x.id ≠ sid := by
  unfold removeSocket at h
  by_cases hany : sockets.any (fun s => s.id == sid) = true
  · rw [if_pos hany] at h
    injection h with h
    subst h
    constructor
    · unfold removeSocket
      rw [if_neg ?_]
      simp only [List.any_eq_true, List.mem_filter, bne_iff_ne, ne_eq, beq_iff_eq]
      rintro ⟨x, ⟨_, hne⟩, heq⟩
      exact hne heq
    · intro x
      simp [List.mem_filter]
  · rw [if_neg hany] at h
    exact absurd h (by simp)

theorem c5_remove_twice_witness :
    removeSocket [] 1 = .error .keyError ∧
      ∀ x, x ∈ ([] : List Socket) ↔ x ∈ [(⟨1, [JValue.str "a"]⟩ : Socket)] ∧ x.id ≠ 1 :=
  c5_remove_twice [⟨1, [JValue.str "a"]⟩] [] 1 (by decide)

/-- Claim C9: the `self.websockets` set grows monotonically — over any
sequence of system events (connections, inbound messages, publishes), no
operation ever removes an element from it. -/
theorem c9_websockets_monotone (st : ServerState) (events : List SysEvent) :
    st.websockets ⊆ (events.foldl sysStep st).websockets := by
  induction events generalizing st with
  | nil => exact Finset.Subset.refl _
  | cons e evs ih =>
    simp only [List.foldl_cons]
    refine Finset.Subset.trans ?_ (ih (sysStep st e))
    cases e with
    | connect wsId => exact Finset.subset_insert _ _
    | message loc m =>
      have h := wsStep_st_websockets st loc m
      simp only [sysStep, h]
      exact Finset.Subset.refl _
    | publish auth body => exact Finset.Subset.refl _

/-- Claim C10: an inbound TEXT message whose body is valid JSON but whose
top-level value is not an object gets no acknowledgment of any kind: the
`AttributeError` from `data.get` is caught and logged, the state and the
local session variable are unchanged, and the handler keeps processing
(the loop is not terminated). -/
theorem c10_non_object_logged_no_ack (st : ServerState) (loc : Option Nat) (v : JValue)
    (h : v.isObj = false) :
    wsStep st loc (.text (some v)) = ⟨st, loc, [], true, false⟩ := by
  rcases v with _ | b | n | s | xs | kvs
  · rfl
  · rfl
  · rfl
  · rfl
  · rfl
  · simp [JValue.isObj] at h

theorem c10_non_object_witness :
    wsStep ⟨"s", ∅, []⟩ none (.text (some (.arr (JArr.ofList [.num 1, .num 2])))) =
      ⟨⟨"s", ∅, []⟩, none, [], true, false⟩ :=
  c10_non_object_logged_no_ack ⟨"s", ∅, []⟩ none _ (by decide)

theorem contains_keys_eq_false_iff (kvs : JObj) (k : String) :
    ((kvs.toList.map Prod.fst).contains k = false) ↔ kvs.get k = none := by
  rw [← Bool.not_eq_true, contains_keys_iff_get]
  cases h : kvs.get k <;> simp [h]

/-- Claim C3 counterexample: a publish body whose `channels` is a
non-empty string — not a sequence of strings — passes validation:
the endpoint returns `HTTPCreated` and dispatches a fan-out to the
string's characters, instead of the claimed `HTTPBadRequest` with no
dispatch. -/
theorem c3_counterexample :
    sendHandler ⟨"sec", ∅, []⟩ (some "sec")
        (some (.obj (JObj.ofList [("channels", .str "ab"), ("event", .num 1)]))) =
      ⟨.created, some ([.str "a", .str "b"], .num 1)⟩ := by
  decide

/-- Claim C3 (amended): for every publish request with the correct secret
whose parsed body is an object lacking a `channels` key or an `event` key,
or whose `channels` or `event` value is empty/falsy, the endpoint returns
`HTTPBadRequest` and no fan-out dispatch occurs.  (The code never checks
that `channels` is a sequence of strings — any truthy value that `set()`
accepts is dispatched — and an unparseable body raises out of the handler
rather than producing 400.) -/
theorem c3_amended (st : ServerState) (auth : Option String) (kvs : JObj)
    (hauth : auth = some st.secret)
    (h : kvs.get "channels" = none ∨ kvs.get "event" = none ∨
        (∃ v, kvs.get "channels" = some v ∧ pyTruthy v = false) ∨
        (∃ v, kvs.get "event" = some v ∧ pyTruthy v = false)) :
    sendHandler st auth (some (.obj kvs)) = ⟨.badRequest, none⟩ := by
  subst hauth
  rcases hc1 : kvs.get "channels" with _ | v1
  · have hcon := (contains_keys_eq_false_iff kvs "channels").2 hc1
    have e1 : pyContains "channels" (JValue.obj kvs) = .ok false := by
      show Except.ok ((kvs.toList.map Prod.fst).contains "channels") = .ok false
      rw [hcon]
    simp [sendHandler, e1]
  · have e1 : pyContains "channels" (JValue.obj kvs) = .ok true := by
      show Except.ok ((kvs.toList.map Prod.fst).contains "channels") = .ok true
      rw [(contains_keys_iff_get kvs "channels").2 ⟨v1, hc1⟩]
    have g1 : pyGetItem (JValue.obj kvs) "channels" = .ok v1 := by
      simp [pyGetItem, hc1]
    rcases hc2 : kvs.get "event" with _ | v2
    · have hcon2 := (contains_keys_eq_false_iff kvs "event").2 hc2
      have e2 : pyContains "event" (JValue.obj kvs) = .ok false := by
        show Except.ok ((kvs.toList.map Prod.fst).contains "event") = .ok false
        rw [hcon2]
      simp [sendHandler, e1, e2]
    · have e2 : pyContains "event" (JValue.obj kvs) = .ok true := by
        show Except.ok ((kvs.toList.map Prod.fst).contains "event") = .ok true
        rw [(contains_keys_iff_get kvs "event").2 ⟨v2, hc2⟩]
      have g2 : pyGetItem (JValue.obj kvs) "event" = .ok v2 := by
        simp [pyGetItem, hc2]
      rcases h with h | h | ⟨v, hv, hfal⟩ | ⟨v, hv, hfal⟩
      · simp [hc1] at h
      · simp [hc2] at h
      · rw [hc1] at hv
        injection hv with hv
        subst hv
        simp [sendHandler, e1, e2, g1, hfal]
      · rw [hc2] at hv
        injection hv with hv
        subst hv
        by_cases ht1 : pyTruthy v1 = true
        · simp [sendHandler, e1, e2, g1, g2, hfal, ht1]
        · have ht1f : pyTruthy v1 = false := by simpa using ht1
          simp [sendHandler, e1, e2, g1, ht1f]

theorem c3_amended_witness :
    sendHandler ⟨"sec", ∅, []⟩ (some "sec")
        (some (.obj (JObj.ofList [("channels", .arr .nil), ("event", .num 1)]))) =
      ⟨.badRequest, none⟩ :=
  c3_amended ⟨"sec", ∅, []⟩ (some "sec") _ rfl
    (Or.inr (Or.inr (Or.inl ⟨.arr .nil, by decide, rfl⟩)))

/-- Claim C6 counterexample: a well-formed message whose `channels` is a
non-empty list of non-strings (`{"channels": [1]}` — not a sequence of
strings) is not rejected: the handler replies with a success
acknowledgment and creates a registry entry with channel set `{1}`. -/
theorem c6_counterexample :
    wsStep ⟨"s", ∅, []⟩ none (.text (some (.obj (JObj.ofList
        [("channels", .arr (JArr.ofList [.num 1]))])))) =
      ⟨⟨"s", ∅, [⟨1, [JValue.num 1]⟩]⟩, some 1, [ackSuccess [JValue.num 1]], false, false⟩ := by
  decide

/-- Claim C6 (amended): when the `channels` field of a well-formed message
is missing or a falsy iterable value (empty list/string/object), the
handler replies `"No channels provided."`; when it is truthy, iterable and
not a list, the handler replies `"Channels must be an array."`; when it is
not iterable, the `TypeError` from `set(channels)` (evaluated before both
checks) is caught and logged and *no* reply is sent.  In each case the
session continues in its current state and no registry entry is created or
modified.  (A non-empty list is accepted whatever its element types —
non-string elements are not rejected.) -/
theorem c6_amended (st : ServerState) (loc : Option Nat) (kvs : JObj) (ch : JValue)
    (hch : (kvs.get "channels").getD (.arr .nil) = ch) :
    ((∃ es, pyIter ch = .ok es) → pyTruthy ch = false →
      wsStep st loc (.text (some (.obj kvs))) = ⟨st, loc, [ackNoChannels], false, false⟩) ∧
    ((∃ es, pyIter ch = .ok es) → pyTruthy ch = true → ch.isArr = false →
      wsStep st loc (.text (some (.obj kvs))) = ⟨st, loc, [ackNotArray], false, false⟩) ∧
    ((∃ e, pyIter ch = .error e) →
      wsStep st loc (.text (some (.obj kvs))) = ⟨st, loc, [], true, false⟩) := by
  subst hch
  refine ⟨?_, ?_, ?_⟩
  · rintro ⟨es, hes⟩ hfal
    have hset : pySet ((kvs.get "channels").getD (.arr .nil)) = .ok es.dedup := by
      simp [pySet, hes, Except.map]
    simp [wsStep, hset, hfal]
  · rintro ⟨es, hes⟩ htr harr
    have hset : pySet ((kvs.get "channels").getD (.arr .nil)) = .ok es.dedup := by
      simp [pySet, hes, Except.map]
    simp [wsStep, hset, htr, harr]
  · rintro ⟨e, he⟩
    have hset : pySet ((kvs.get "channels").getD (.arr .nil)) = .error e := by
      simp [pySet, he, Except.map]
    simp [wsStep, hset]

theorem c6_amended_witness :
    wsStep ⟨"s", ∅, []⟩ none (.text (some (.obj (JObj.ofList [("channels", .arr .nil)])))) =
      ⟨⟨"s", ∅, []⟩, none, [ackNoChannels], false, false⟩ :=
  (c6_amended ⟨"s", ∅, []⟩ none (JObj.ofList [("channels", .arr .nil)]) (.arr .nil)
    (by decide)).1 ⟨[], rfl⟩ rfl

/-- Claim C7: for a registered connection (local `socket` set and present
in the registry) receiving a valid non-empty `channels` list `xs`, the
connection's channel set after the update equals exactly `set(xs)` — the
prior set is replaced wholesale, never merged — and a success
acknowledgment echoing the deduplicated set is sent. -/
theorem c7_update_replaces_wholesale (st : ServerState) (sid : Nat) (kvs : JObj)
    (xs : JArr) (chs0 : List JValue)
    (hch : kvs.get "channels" = some (.arr xs))
    (hne : xs ≠ .nil)
    (hreg : lookupChannels st.sockets sid = some chs0) :
    lookupChannels (wsStep st (some sid) (.text (some (.obj kvs)))).st.sockets sid =
        some xs.toList.dedup ∧
      (∀ x, x ∈ xs.toList.dedup ↔ x ∈ xs.toList) ∧
      (wsStep st (some sid) (.text (some (.obj kvs)))).sent = [ackSuccess xs.toList.dedup] := by
  have htr : pyTruthy (.arr xs) = true := by
    cases xs
    · exact absurd rfl hne
    · rfl
  have hset : pySet (JValue.arr xs) = .ok xs.toList.dedup := by
    simp [pySet, pyIter, Except.map]
  have hres : wsStep st (some sid) (.text (some (.obj kvs))) =
      ⟨{ st with sockets := setChannels st.sockets sid xs.toList.dedup }, some sid,
        [ackSuccess xs.toList.dedup], false, false⟩ := by
    simp [wsStep, hch, hset, htr, JValue.isArr]
  rw [hres]
  refine ⟨?_, fun x => List.mem_dedup, rfl⟩
  exact lookupChannels_setChannels _ _ _ (by rw [hreg]; rfl)

theorem c7_update_witness :
    lookupChannels (wsStep ⟨"s", ∅, [⟨5, [JValue.str "old"]⟩]⟩ (some 5)
        (.text (some (.obj (JObj.ofList
          [("channels", .arr (JArr.ofList [.str "a", .str "b"]))]))))).st.sockets 5 =
        some (JArr.ofList [.str "a", .str "b"]).toList.dedup ∧
      (∀ x, x ∈ (JArr.ofList [JValue.str "a", .str "b"]).toList.dedup ↔
        x ∈ (JArr.ofList [JValue.str "a", .str "b"]).toList) ∧
      (wsStep ⟨"s", ∅, [⟨5, [JValue.str "old"]⟩]⟩ (some 5)
        (.text (some (.obj (JObj.ofList
          [("channels", .arr (JArr.ofList [.str "a", .str "b"]))]))))).sent =
        [ackSuccess (JArr.ofList [JValue.str "a", .str "b"]).toList.dedup] :=
  c7_update_replaces_wholesale ⟨"s", ∅, [⟨5, [JValue.str "old"]⟩]⟩ 5 _ _ [JValue.str "old"]
    (by decide) (by decide) (by decide)

/-- Claim C8: fan-out failures are isolated — the outcome of each matched
connection's send does not change the HTTP response (already computed by
`send_handler` before the detached task runs), `send_channels` never
raises to its caller (`asyncio.gather(..., return_exceptions=True)`), and
every matched connection gets its own send attempt regardless of the
outcomes at all other connections. -/
theorem c8_fanout_isolated (st : ServerState) (auth : Option String) (body : Option JValue)
    (outcome outcome' : Socket → JValue → Except PyError Unit) (s : Socket)
    (chs : List JValue) (ev : JValue) :
    (publishAndDeliver st auth body outcome).1 = (publishAndDeliver st auth body outcome').1 ∧
    (∃ rs, (publishAndDeliver st auth body outcome).2 = .ok rs) ∧
    ((sendHandler st auth body).dispatch = some (chs, ev) → s ∈ matching st.sockets chs →
      (s, outcome s ev) ∈ coros st.sockets chs ev outcome) := by
  refine ⟨?_, ?_, ?_⟩
  · rcases h : (sendHandler st auth body).dispatch with _ | ⟨pchs, pev⟩ <;>
      simp [publishAndDeliver, h]
  · rcases h : (sendHandler st auth body).dispatch with _ | ⟨pchs, pev⟩
    · exact ⟨[], by simp [publishAndDeliver, h]⟩
    · exact ⟨coros st.sockets pchs pev outcome,
        by simp [publishAndDeliver, h, sendChannels, gather]⟩
  · intro _ hm
    exact List.mem_map.2 ⟨s, hm, rfl⟩

theorem c8_fanout_witness :
    (publishAndDeliver ⟨"sec", ∅, [⟨1, [JValue.str "a"]⟩]⟩ (some "sec")
        (some (.obj (JObj.ofList [("channels", .arr (JArr.ofList [.str "a"])),
          ("event", .num 1)])))
        (fun _ _ => .error .connectionResetError)).1 =
      (publishAndDeliver ⟨"sec", ∅, [⟨1, [JValue.str "a"]⟩]⟩ (some "sec")
        (some (.obj (JObj.ofList [("channels", .arr (JArr.ofList [.str "a"])),
          ("event", .num 1)])))
        (fun _ _ => .ok ())).1 ∧
    (∃ rs, (publishAndDeliver ⟨"sec", ∅, [⟨1, [JValue.str "a"]⟩]⟩ (some "sec")
        (some (.obj (JObj.ofList [("channels", .arr (JArr.ofList [.str "a"])),
          ("event", .num 1)])))
        (fun _ _ => .error .connectionResetError)).2 = .ok rs) ∧
    ((⟨1, [JValue.str "a"]⟩, Except.error PyError.connectionResetError) ∈
      coros [⟨1, [JValue.str "a"]⟩] [JValue.str "a"] (.num 1)
        (fun _ _ => .error .connectionResetError)) := by
  refine ⟨?_, ?_, ?_⟩
  · exact (c8_fanout_isolated _ _ _ _ _ ⟨1, [JValue.str "a"]⟩ [JValue.str "a"] (.num 1)).1
  · exact (c8_fanout_isolated _ _ _ (fun _ _ => .error .connectionResetError)
      (fun _ _ => .ok ()) ⟨1, [JValue.str "a"]⟩ [JValue.str "a"] (.num 1)).2.1
  · exact (c8_fanout_isolated ⟨"sec", ∅, [⟨1, [JValue.str "a"]⟩]⟩ (some "sec")
      (some (.obj (JObj.ofList [("channels", .arr (JArr.ofList [.str "a"])),
        ("event", .num 1)])))
      (fun _ _ => .error .connectionResetError) (fun _ _ => .ok ())
      ⟨1, [JValue.str "a"]⟩ [JValue.str "a"] (.num 1)).2.2 (by decide) (by decide)
